import Mathlib

/-!
Verification development for the hyperdrive-profiler command-line tool.

The profiler downloads a hyperdrive into a temporary workspace, prints a
periodic statistics report, tracks milestone timestamps, optionally tracks a
list of expected remote peers, and tears everything down through a single
finalizer registered with the graceful-goodbye library.

The definitions below are a shallow embedding of the JavaScript source:
  - the remotes-capable CLI variant (src/unnamed/part_000), and
  - the plain CLI variant (src/index.js) where the two differ.
Machine numbers are modelled as Nat; fractional seconds as rationals; the
JavaScript division-by-zero behaviour is modelled explicitly (IEEE semantics
over exact rationals: positive/0 gives positive infinity, 0/0 gives NaN).
Sequential effectful code is modelled as functions producing an event trace,
an error outcome, and updated call counters, with failure of each awaited
external call injected through an explicit effects record.
-/

namespace HyperdriveProfiler

/-- Result of a JavaScript numeric expression: a finite (exact rational)
value, an infinity, or NaN.  Used to model divisions whose divisor may be
zero, which JavaScript evaluates without raising an error. -/
inductive JsNum where
  | finite (q : ℚ)
  | posInf
  | negInf
  | nan
deriving DecidableEq, Repr

/-- JavaScript division of a non-negative integer counter by a non-negative
rational number of elapsed seconds: performs the division even when the
divisor is zero (count/0 is positive infinity for positive count, NaN for
0/0); no error is ever raised. -/
def jsDivCounter (count : ℕ) (elapsedSec : ℚ) : JsNum :=
  if elapsedSec = 0 then
    (if count = 0 then JsNum.nan else JsNum.posInf)
  else JsNum.finite ((count : ℚ) / elapsedSec)

/-- Raw UDX transport counters read from swarmStats.dhtStats
(getUdxInfo, src/unnamed/part_000 lines 225-236). -/
structure UdxCounters where
  udxBytesReceived : ℕ
  udxBytesTransmitted : ℕ
  udxPacketsReceived : ℕ
  udxPacketsTransmitted : ℕ
  udxPacketsDropped : ℕ
deriving DecidableEq, Repr

/-- Derived per-second rates of the Network (UDX) report section. -/
structure UdxRates where
  bytesRxPerSec : JsNum
  bytesTxPerSec : JsNum
  packetsRxPerSec : JsNum
  packetsTxPerSec : JsNum
  packetsDroppedPerSec : JsNum
deriving DecidableEq, Repr

/-- Embeds the rate computations of getUdxInfo
(src/unnamed/part_000 lines 225-236): each counter is divided by the elapsed
seconds, with JavaScript division semantics. -/
def getUdxRates (c : UdxCounters) (elapsedSec : ℚ) : UdxRates :=
  { bytesRxPerSec := jsDivCounter c.udxBytesReceived elapsedSec
    bytesTxPerSec := jsDivCounter c.udxBytesTransmitted elapsedSec
    packetsRxPerSec := jsDivCounter c.udxPacketsReceived elapsedSec
    packetsTxPerSec := jsDivCounter c.udxPacketsTransmitted elapsedSec
    packetsDroppedPerSec := jsDivCounter c.udxPacketsDropped elapsedSec }

/-- Live replication peer as exposed on core.peers and on
core.replicator.peers: the public key (already in normalized z-base-32 form,
IdEnc.normalize is modelled as the identity on normalized strings) together
with the remote length claims. -/
structure ReplPeer where
  remotePublicKey : String
  remoteLength : ℕ
  remoteContiguousLength : ℕ
deriving DecidableEq, Repr

/-- Done test of printRemotesInfo (src/unnamed/part_000 lines 256 and 266):
a peer is done when its remote length is positive and its remote contiguous
length equals its remote length. -/
def remotePeerDone (p : ReplPeer) : Bool :=
  decide (0 < p.remoteLength) && decide (p.remoteContiguousLength = p.remoteLength)

/-- Number of live peers of one core that are in the expected remotes list
and are done, as counted by nrDoneDbBlindPeers / nrDoneBlobsBlindPeers in
printRemotesInfo (src/unnamed/part_000 lines 253-270). -/
def nrDonePeers (remotes : List String) (peers : List ReplPeer) : ℕ :=
  peers.foldl
    (fun acc p =>
      if remotes.contains p.remotePublicKey && remotePeerDone p then acc + 1 else acc)
    0

/-- Per-peer status line data printed by printRemotesInfo for one core: only
live peers whose key is in the expected list produce a line; each line shows
the key, the done flag, and contiguous length / length
(src/unnamed/part_000 lines 253-260 and 263-270). -/
def remotesReportLines (remotes : List String) (peers : List ReplPeer) :
    List (String × Bool × ℕ × ℕ) :=
  (peers.filter (fun p => remotes.contains p.remotePublicKey)).map
    (fun p => (p.remotePublicKey, remotePeerDone p, p.remoteContiguousLength, p.remoteLength))

/-- Aggregate summary condition of printRemotesInfo
(src/unnamed/part_000 line 272): the all-remotes-complete line is printed
exactly when the done count of the db core equals the number of expected
remotes and the done count of the blobs core also equals it. -/
def allRemotesDone (remotes : List String) (dbPeers blobPeers : List ReplPeer) : Bool :=
  decide (nrDonePeers remotes dbPeers = remotes.length) &&
  decide (nrDonePeers remotes blobPeers = remotes.length)

/-- Snapshot of one hypercore handle: its length and contiguous length. -/
structure CoreView where
  length : ℕ
  contiguousLength : ℕ
deriving DecidableEq, Repr

/-- Contiguous-length display of the blobs core in printStats of the
remotes-capable variant (src/unnamed/part_000 lines 79-81): the optional
chain drive.blobs?.core?.contiguousLength compares equal to null exactly
when the blobs core handle is absent, in which case the string loading is
shown instead of a number. -/
def blobsContigDisplay (blobsCore : Option CoreView) : String :=
  match blobsCore with
  | none => "loading"
  | some c => toString c.contiguousLength

/-- Length display of the blobs core in printStats of the remotes-capable
variant (src/unnamed/part_000 lines 82-84). -/
def blobsLengthDisplay (blobsCore : Option CoreView) : String :=
  match blobsCore with
  | none => "loading"
  | some c => toString c.length

/-- Blobs-core report line of the remotes-capable variant
(src/unnamed/part_000 line 86). -/
def blobsCoreLine (blobsCore : Option CoreView) : String :=
  "\n  - Blobs core: " ++ blobsContigDisplay blobsCore ++ " / " ++
    blobsLengthDisplay blobsCore ++ " (contiguous length / length)"

/-- Blobs-core report line of the plain variant (src/index.js line 69):
drive.blobs.core is dereferenced without an optional chain or guard, so when
the blobs handle is absent the expression throws a TypeError and printStats
fails instead of producing a report line. -/
def blobsCoreLineIndexJs (blobsCore : Option CoreView) : Except String String :=
  match blobsCore with
  | none => Except.error "TypeError: cannot read property core of undefined"
  | some c =>
    Except.ok ("\n  - Blobs core: " ++ toString c.contiguousLength ++ " / " ++
      toString c.length ++ " (contiguous length / length)")

/-- Sections of one periodic or final report. -/
inductive ReportSection where
  | general
  | network
  | connection
  | hypercore
  | availability
  | remotePeers
deriving DecidableEq, Repr

/-- Section list of one printStats invocation in the remotes-capable variant
(src/unnamed/part_000 lines 69-117): the General, Network, Connection,
Hypercore and Availability sections are always printed; the RemotePeers
section (printRemotesInfo) is printed exactly when the expected-remotes list
is non-empty (line 115).  The live peer lists are taken as arguments because
printStats reads them, but they do not influence which sections appear. -/
def printStatsSections (remotes : List String)
    (dbPeers blobPeers : List ReplPeer) : List ReportSection :=
  let _ := dbPeers
  let _ := blobPeers
  [ReportSection.general, ReportSection.network, ReportSection.connection,
   ReportSection.hypercore, ReportSection.availability] ++
  (if remotes.length > 0 then [ReportSection.remotePeers] else [])

/-- DHT-level statistics read from swarmStats.dhtStats. -/
structure DhtStatsView where
  remoteAddress : String
  isFirewalled : Bool
  punchesConsistent : ℕ
  punchesRandom : ℕ
  punchesOpen : ℕ
  queriesTotal : ℕ
  pingRx : ℕ
  pingTx : ℕ
  pingNatRx : ℕ
  pingNatTx : ℕ
  downHintRx : ℕ
  downHintTx : ℕ
  findNodeRx : ℕ
  findNodeTx : ℕ
deriving DecidableEq, Repr

/-- Hyperswarm-level statistics consumed by getSwarmInfo. -/
structure SwarmStatsView where
  dhtStats : DhtStatsView
  clientAttempted : ℕ
  clientOpened : ℕ
  clientClosed : ℕ
  rtoCount : ℕ
  fastRecoveries : ℕ
  retransmits : ℕ
deriving DecidableEq, Repr

/-- Address shown in the Connection section (src/unnamed/part_000 lines
189-191): the literal remote address when the ip flag is set, otherwise the
fixed redaction placeholder. -/
def displayedAddress (printIp : Bool) (remoteAddress : String) : String :=
  if printIp then remoteAddress else "xxx.xxx.xxx.xxx"

/-- Connection section text strictly after the interpolated address
(src/unnamed/part_000 lines 193-220). -/
def swarmInfoAfterAddress (s : SwarmStatsView) (detail : Bool) : String :=
  " (firewalled: " ++ toString s.dhtStats.isFirewalled ++ ")\n  - Connections:\n    - Attempted: " ++
  toString s.clientAttempted ++ "\n    - Opened: " ++ toString s.clientOpened ++
  "\n    - Closed: " ++ toString s.clientClosed ++
  "\n  - Connection issues:\n    - Retransmission timeouts: " ++ toString s.rtoCount ++
  "\n    - Fast recoveries: " ++ toString s.fastRecoveries ++
  "\n    - Retransmits: " ++ toString s.retransmits ++ "\n" ++
  (if detail then
    "  - Punches:\n    - Consistent: " ++ toString s.dhtStats.punchesConsistent ++
    "\n    - Random: " ++ toString s.dhtStats.punchesRandom ++
    "\n    - Open: " ++ toString s.dhtStats.punchesOpen ++ "\n" ++
    "  - Total Queries: " ++ toString s.dhtStats.queriesTotal ++
    "\n  - DHT commands\n    - Ping: " ++ toString s.dhtStats.pingRx ++ " received / " ++
    toString s.dhtStats.pingTx ++ " transmitted\n    - Ping NAT: " ++
    toString s.dhtStats.pingNatRx ++ " received / " ++ toString s.dhtStats.pingNatTx ++
    " transmitted\n    - Down Hint: " ++ toString s.dhtStats.downHintRx ++ " received / " ++
    toString s.dhtStats.downHintTx ++ " transmitted\n    - Find Node: " ++
    toString s.dhtStats.findNodeRx ++ " received / " ++ toString s.dhtStats.findNodeTx ++
    " transmitted\n"
   else "")

/-- Connection section of the report, embedding getSwarmInfo
(src/unnamed/part_000 lines 188-223). -/
def getSwarmInfo (s : SwarmStatsView) (printIp detail : Bool) : String :=
  "Connection info\n  - Address: " ++ displayedAddress printIp s.dhtStats.remoteAddress ++
    swarmInfoAfterAddress s detail

/-- Model of the JavaScript toFixed(2) display of a non-negative rational
number of seconds: the value rounded to the nearest hundredth, printed with
exactly two decimal digits. -/
def toFixed2 (q : ℚ) : String :=
  let cents : ℤ := round (q * 100)
  let frac : ℕ := (cents % 100).natAbs
  toString (cents / 100) ++ "." ++ (if frac < 10 then "0" else "") ++ toString frac

/-- Metadata-found fragment of the General section
(src/unnamed/part_000 lines 73-76): the conditional expression tests the
milestone variable by JavaScript truthiness, so both the null initial value
and the number 0 select the still-connecting text. -/
def metadataFoundPart (secTillMetadata : Option ℚ) : String :=
  match secTillMetadata with
  | none => "unknown (still connecting...)"
  | some v => if v = 0 then "unknown (still connecting...)" else toFixed2 v ++ " seconds"

/-- Fully-downloaded fragment of the General section
(src/unnamed/part_000 line 87): appended only when the milestone variable is
truthy, so both null and the number 0 append nothing. -/
def fullyDownloadedPart (secTillFullyDownload : Option ℚ) : String :=
  match secTillFullyDownload with
  | none => ""
  | some v =>
    if v = 0 then "" else "\n  - Fully downloaded in " ++ toFixed2 v ++ " seconds"

/-- Observable events of the command handler of the remotes-capable variant
(src/unnamed/part_000 lines 25-161), in source order.  The logErrorEvent
constructor stands for a console line reporting a caught error; the handler
body never emits one (the catch block around the stale-workspace removal is
empty). -/
inductive SEvent where
  | readRemotes
  | gcDirCall
  | mkdirCall
  | newCorestore
  | newHypercoreStats
  | newHyperdrive
  | newHyperswarm
  | newSwarmStats
  | setStatsInterval
  | clearStatsInterval
  | registerGoodbye
  | driveReady
  | swarmJoin
  | awaitMetadataAppend
  | setSecTillMetadata
  | downloadDone
  | setSecTillFullyDownload
  | goodbyeExitCall
  | logErrorEvent
deriving DecidableEq, Repr

/-- Failure injection for the awaited external calls of the command handler:
whether removing the stale workspace fails (caught and swallowed at
src/unnamed/part_000 lines 48-50) and whether creating the workspace fails
(uncaught at line 52).  The metadataAlreadyPresent field selects the branch
of line 151 where the metadata core length is already above one at join
time, skipping the append wait. -/
structure SessionFx where
  remotesFlag : Bool
  gcDirFails : Bool
  mkdirFails : Bool
  metadataAlreadyPresent : Bool
deriving DecidableEq, Repr

/-- Errors that can escape the command handler. -/
inductive SessionError where
  | mkdirError
deriving DecidableEq, Repr

/-- Outcome of one run of the command handler: the events executed in order,
whether a stale-workspace removal failure was swallowed by the empty catch
block, and the error propagated to the caller, if any. -/
structure SessionRun where
  events : List SEvent
  swallowedGcFailure : Bool
  fatal : Option SessionError
deriving DecidableEq, Repr

/-- Embeds the command handler of the remotes-capable variant
(src/unnamed/part_000 lines 25-161) as a linear event trace with failure
injection.  Source order: optional remotes file read (lines 40-47); stale
workspace removal inside try/catch with an empty catch block (48-50);
workspace creation (52, uncaught, so its failure aborts the handler);
corestore, hypercore stats, hyperdrive, hyperswarm, swarm stats construction
(54-67); periodic report timer registration (118); goodbye finalizer
registration (121); drive ready (135); swarm join (150); wait for the first
metadata append when the metadata core length is at most one (151); metadata
milestone assignment (152); download completion (156); fully-downloaded
milestone assignment (158); goodbye exit (160).  No clearStatsInterval and
no logErrorEvent occurs in the handler body. -/
def runCmdHandler (fx : SessionFx) : SessionRun :=
  let evs := (if fx.remotesFlag then [SEvent.readRemotes] else []) ++
    [SEvent.gcDirCall, SEvent.mkdirCall]
  if fx.mkdirFails then
    { events := evs
      swallowedGcFailure := fx.gcDirFails
      fatal := some SessionError.mkdirError }
  else
    { events := evs ++
        [SEvent.newCorestore, SEvent.newHypercoreStats, SEvent.newHyperdrive,
         SEvent.newHyperswarm, SEvent.newSwarmStats, SEvent.setStatsInterval,
         SEvent.registerGoodbye, SEvent.driveReady, SEvent.swarmJoin] ++
        (if fx.metadataAlreadyPresent then [] else [SEvent.awaitMetadataAppend]) ++
        [SEvent.setSecTillMetadata, SEvent.downloadDone,
         SEvent.setSecTillFullyDownload, SEvent.goodbyeExitCall]
      swallowedGcFailure := fx.gcDirFails
      fatal := none }

/-- Index of the first occurrence of an event in a trace (length of the
trace when absent). -/
def eventIdx (e : SEvent) (l : List SEvent) : ℕ :=
  (l.takeWhile (fun x => x ≠ e)).length

/-- Failure injection for the three awaited teardown calls of the goodbye
finalizer. -/
structure TeardownFx where
  destroyFails : Bool
  closeFails : Bool
  rmFails : Bool
deriving DecidableEq, Repr

/-- Errors raised by the awaited teardown calls. -/
inductive TeardownError where
  | destroyError
  | closeError
  | rmError
deriving DecidableEq, Repr

/-- Console lines printed by the goodbye finalizer, in source order. -/
inductive FinalizerLog where
  | statsReport
  | cancellingMsg
  | destroyingMsg
  | closingMsg
  | cleaningMsg
  | doneMsg
deriving DecidableEq, Repr

/-- Call counters accumulated across invocations of the goodbye finalizer. -/
structure FinalizerState where
  statsReports : ℕ
  clearIntervalCalls : ℕ
  destroyCalls : ℕ
  closeCalls : ℕ
  rmCalls : ℕ
deriving DecidableEq, Repr

/-- Initial finalizer counters: nothing has run yet. -/
def initFinalizerState : FinalizerState :=
  { statsReports := 0, clearIntervalCalls := 0, destroyCalls := 0, closeCalls := 0, rmCalls := 0 }

/-- Outcome of one invocation of the goodbye finalizer: updated call
counters, the console lines it printed, and the error it re-raised (the
rejection of its async body), if any. -/
structure FinalizerOutcome where
  state : FinalizerState
  logs : List FinalizerLog
  err : Option TeardownError
deriving DecidableEq, Repr

/-- Embeds the goodbye finalizer of the remotes-capable variant
(src/unnamed/part_000 lines 121-133).  Body in source order: print one
report; print the cancelling notice when the cancelling flag is set; clear
the periodic timer; print the destroying line and await swarm.destroy;
print the closing line and await store.close; print the cleaning line and
await gcDir; print the done line.  The body contains no try/catch and no
entered-guard, so a failing await rejects the async function immediately:
later steps are not attempted, the failure is not logged, and every
invocation re-runs the sequence from the start. -/
def runGoodbyeFinalizer (cancelling : Bool) (fx : TeardownFx)
    (s : FinalizerState) : FinalizerOutcome :=
  let logs := [FinalizerLog.statsReport] ++
    (if cancelling then [FinalizerLog.cancellingMsg] else [])
  let s1 := { s with
    statsReports := s.statsReports + 1
    clearIntervalCalls := s.clearIntervalCalls + 1 }
  let logs := logs ++ [FinalizerLog.destroyingMsg]
  let s2 := { s1 with destroyCalls := s1.destroyCalls + 1 }
  if fx.destroyFails then
    { state := s2, logs := logs, err := some TeardownError.destroyError }
  else
    let logs := logs ++ [FinalizerLog.closingMsg]
    let s3 := { s2 with closeCalls := s2.closeCalls + 1 }
    if fx.closeFails then
      { state := s3, logs := logs, err := some TeardownError.closeError }
    else
      let logs := logs ++ [FinalizerLog.cleaningMsg]
      let s4 := { s3 with rmCalls := s3.rmCalls + 1 }
      if fx.rmFails then
        { state := s4, logs := logs, err := some TeardownError.rmError }
      else
        { state := s4, logs := logs ++ [FinalizerLog.doneMsg], err := none }

/-- C4, counterexample.  At elapsed = 0 the code performs the JavaScript
division: the resulting value depends on the counter (positive infinity for
a positive counter, NaN for a zero counter), so it is not one fixed
unavailable sentinel, contrary to the claim. -/
theorem udx_rate_zero_elapsed_no_fixed_sentinel_cex :
    jsDivCounter 5 0 = JsNum.posInf ∧ jsDivCounter 0 0 = JsNum.nan ∧
    jsDivCounter 5 0 ≠ jsDivCounter 0 0 := by
  decide

/-- C4 (amended).  For every counter record and every elapsed > 0, each
derived rate of the Network section equals count / elapsed; for elapsed = 0
the division is still performed under JavaScript numeric semantics, yielding
positive infinity for a positive counter and NaN for a zero counter — a
defined, error-free result, but not a fixed unavailable sentinel. -/
theorem udx_rates_are_count_div_elapsed (c : UdxCounters) (elapsedSec : ℚ) :
    (0 < elapsedSec →
      getUdxRates c elapsedSec =
        { bytesRxPerSec := JsNum.finite ((c.udxBytesReceived : ℚ) / elapsedSec)
          bytesTxPerSec := JsNum.finite ((c.udxBytesTransmitted : ℚ) / elapsedSec)
          packetsRxPerSec := JsNum.finite ((c.udxPacketsReceived : ℚ) / elapsedSec)
          packetsTxPerSec := JsNum.finite ((c.udxPacketsTransmitted : ℚ) / elapsedSec)
          packetsDroppedPerSec := JsNum.finite ((c.udxPacketsDropped : ℚ) / elapsedSec) }) ∧
    (elapsedSec = 0 →
      getUdxRates c elapsedSec =
        { bytesRxPerSec := if c.udxBytesReceived = 0 then JsNum.nan else JsNum.posInf
          bytesTxPerSec := if c.udxBytesTransmitted = 0 then JsNum.nan else JsNum.posInf
          packetsRxPerSec := if c.udxPacketsReceived = 0 then JsNum.nan else JsNum.posInf
          packetsTxPerSec := if c.udxPacketsTransmitted = 0 then JsNum.nan else JsNum.posInf
          packetsDroppedPerSec :=
            if c.udxPacketsDropped = 0 then JsNum.nan else JsNum.posInf }) := by
  constructor
  · intro h
    simp [getUdxRates, jsDivCounter, h.ne']
  · intro h
    subst h
    simp [getUdxRates, jsDivCounter]

/-- C4, witness for the amended theorem at a concrete counter record and
elapsed = 2 seconds. -/
theorem udx_rates_are_count_div_elapsed_witness :
    getUdxRates ⟨3, 4, 5, 6, 7⟩ 2 =
      { bytesRxPerSec := JsNum.finite (3 / 2)
        bytesTxPerSec := JsNum.finite (4 / 2)
        packetsRxPerSec := JsNum.finite (5 / 2)
        packetsTxPerSec := JsNum.finite (6 / 2)
        packetsDroppedPerSec := JsNum.finite (7 / 2) } := by
  have h := (udx_rates_are_count_div_elapsed ⟨3, 4, 5, 6, 7⟩ 2).1 (by norm_num)
  simpa using h

/-- C5, counterexample.  When a live peer list contains two entries with the
same expected identity (both done on the db core) and the blobs core has no
done peer, the total done count across both streams equals twice the number
of expected peers, yet the code does not print the all-remotes-complete line
(it requires each per-stream count to equal the expected count separately).
-/
theorem all_remotes_done_sum_mismatch_cex :
    nrDonePeers ["a"] [⟨"a", 1, 1⟩, ⟨"a", 1, 1⟩] +
        nrDonePeers ["a"] ([] : List ReplPeer) =
      2 * (["a"] : List String).length ∧
    allRemotesDone ["a"] [⟨"a", 1, 1⟩, ⟨"a", 1, 1⟩] [] = false := by
  decide

/-- C5 (amended).  Each live peer whose normalized identity is in the
expected list is classified done exactly when its remote length is positive
and its remote contiguous length equals its remote length; every printed
remote line comes from a live peer whose identity is in the expected list
(so expected peers absent from the live list are omitted); and the
all-remotes-complete line is printed exactly when the done count of each of
the two streams separately equals the number of expected peers — which
coincides with the claimed condition (total done count = 2 times the
expected count) whenever each per-stream done count is at most the expected
count, but not in general. -/
theorem remote_peer_classification :
    (∀ p : ReplPeer,
      remotePeerDone p = true ↔
        0 < p.remoteLength ∧ p.remoteContiguousLength = p.remoteLength) ∧
    (∀ (remotes : List String) (peers : List ReplPeer)
        (e : String × Bool × ℕ × ℕ),
      e ∈ remotesReportLines remotes peers →
        ∃ p ∈ peers, p.remotePublicKey = e.1 ∧ remotes.contains e.1 = true ∧
          e.2.1 = remotePeerDone p) ∧
    (∀ (remotes : List String) (dbPeers blobPeers : List ReplPeer),
      allRemotesDone remotes dbPeers blobPeers = true ↔
        nrDonePeers remotes dbPeers = remotes.length ∧
          nrDonePeers remotes blobPeers = remotes.length) ∧
    (∀ (remotes : List String) (dbPeers blobPeers : List ReplPeer),
      nrDonePeers remotes dbPeers ≤ remotes.length →
      nrDonePeers remotes blobPeers ≤ remotes.length →
        (allRemotesDone remotes dbPeers blobPeers = true ↔
          nrDonePeers remotes dbPeers + nrDonePeers remotes blobPeers =
            2 * remotes.length)) := by
  refine ⟨?_, ?_, ?_, ?_⟩
  · intro p
    simp [remotePeerDone]
  · intro remotes peers e he
    simp only [remotesReportLines, List.mem_map, List.mem_filter] at he
    obtain ⟨p, ⟨hp, hc⟩, rfl⟩ := he
    exact ⟨p, hp, rfl, hc, rfl⟩
  · intro remotes dbPeers blobPeers
    simp [allRemotesDone]
  · intro remotes dbPeers blobPeers hdb hblobs
    simp only [allRemotesDone, Bool.and_eq_true, decide_eq_true_eq]
    omega

/-- C5, witness for the amended theorem at the specification test vector:
expected peerA and peerB, live db peers peerA (done) and peerC, no live
blobs peers; the aggregate line is not printed and the sum condition agrees.
-/
theorem remote_peer_classification_witness :
    (allRemotesDone ["peerA", "peerB"]
        [⟨"peerA", 100, 100⟩, ⟨"peerC", 50, 10⟩] [] = true ↔
      nrDonePeers ["peerA", "peerB"] [⟨"peerA", 100, 100⟩, ⟨"peerC", 50, 10⟩] +
          nrDonePeers ["peerA", "peerB"] ([] : List ReplPeer) =
        2 * (["peerA", "peerB"] : List String).length) ∧
    remotePeerDone ⟨"peerA", 100, 100⟩ = true := by
  constructor
  · exact remote_peer_classification.2.2.2 ["peerA", "peerB"]
      [⟨"peerA", 100, 100⟩, ⟨"peerC", 50, 10⟩] [] (by decide) (by decide)
  · exact (remote_peer_classification.1 ⟨"peerA", 100, 100⟩).mpr (by decide)

/-- C6, counterexample.  In the plain variant (src/index.js line 69) the
blobs core is dereferenced without a guard, so when the blobs handle does
not exist yet the report tick throws instead of rendering, contrary to the
claim that rendering does not fail. -/
theorem blobs_line_plain_variant_throws_cex :
    blobsCoreLineIndexJs none =
      Except.error "TypeError: cannot read property core of undefined" := by
  rfl

/-- C6 (amended).  In the remotes-capable variant (src/unnamed/part_000
lines 79-86) a report tick at which the blobs core handle does not exist
renders both the length and the contiguous length as the string loading and
rendering does not fail, while an existing handle renders the numbers; in
the plain variant (src/index.js line 69) the same tick fails with a
TypeError instead of rendering. -/
theorem blobs_loading_rendering :
    blobsContigDisplay none = "loading" ∧
    blobsLengthDisplay none = "loading" ∧
    blobsCoreLine none =
      "\n  - Blobs core: loading / loading (contiguous length / length)" ∧
    (∀ c : CoreView,
      blobsCoreLine (some c) =
        "\n  - Blobs core: " ++ toString c.contiguousLength ++ " / " ++
          toString c.length ++ " (contiguous length / length)") ∧
    blobsCoreLineIndexJs none =
      Except.error "TypeError: cannot read property core of undefined" ∧
    (∀ c : CoreView,
      blobsCoreLineIndexJs (some c) =
        Except.ok ("\n  - Blobs core: " ++ toString c.contiguousLength ++ " / " ++
          toString c.length ++ " (contiguous length / length)")) := by
  refine ⟨rfl, rfl, rfl, ?_, rfl, ?_⟩
  · intro c
    rfl
  · intro c
    rfl

/-- C7.  A session started with an empty expected-remotes list never emits
the RemotePeers section: printStats prints it only when the expected list is
non-empty, independently of which live peers are connected. -/
theorem empty_remotes_no_remote_section
    (remotes : List String) (dbPeers blobPeers : List ReplPeer)
    (h : remotes = []) :
    ReportSection.remotePeers ∉ printStatsSections remotes dbPeers blobPeers := by
  subst h
  simp [printStatsSections]

/-- C7, witness at the empty expected list with live peers present on both
streams. -/
theorem empty_remotes_no_remote_section_witness :
    ReportSection.remotePeers ∉
      printStatsSections [] [⟨"peerA", 3, 3⟩] [⟨"peerB", 2, 1⟩] :=
  empty_remotes_no_remote_section [] [⟨"peerA", 3, 3⟩] [⟨"peerB", 2, 1⟩] rfl

/-- C8.  With the ip flag unset (its default) the Connection section shows
the fixed redaction placeholder in place of the address, and the rendered
section is identical for any two swarm-stats views differing only in the
observed remote address: the address does not influence the output. -/
theorem address_redaction_noninterference
    (s : SwarmStatsView) (a₁ a₂ : String) (detail : Bool) :
    displayedAddress false a₁ = "xxx.xxx.xxx.xxx" ∧
    getSwarmInfo s false detail =
      "Connection info\n  - Address: " ++ "xxx.xxx.xxx.xxx" ++
        swarmInfoAfterAddress s detail ∧
    getSwarmInfo { s with dhtStats := { s.dhtStats with remoteAddress := a₁ } }
        false detail =
      getSwarmInfo { s with dhtStats := { s.dhtStats with remoteAddress := a₂ } }
        false detail := by
  refine ⟨rfl, rfl, ?_⟩
  simp [getSwarmInfo, displayedAddress, swarmInfoAfterAddress]

/-- C10.  The report tests the milestone variables by JavaScript truthiness:
a metadata milestone stored as exactly 0 seconds renders the same
still-connecting text as an unset milestone, and a fully-downloaded
milestone of exactly 0 seconds is omitted like an unset one, while every
strictly positive milestone value is rendered. -/
theorem milestone_truthiness_rendering :
    metadataFoundPart none = "unknown (still connecting...)" ∧
    metadataFoundPart (some 0) = "unknown (still connecting...)" ∧
    metadataFoundPart (some 0) = metadataFoundPart none ∧
    fullyDownloadedPart none = "" ∧
    fullyDownloadedPart (some 0) = "" ∧
    (∀ v : ℚ, 0 < v →
      metadataFoundPart (some v) = toFixed2 v ++ " seconds" ∧
      fullyDownloadedPart (some v) =
        "\n  - Fully downloaded in " ++ toFixed2 v ++ " seconds") := by
  refine ⟨rfl, by simp [metadataFoundPart], by simp [metadataFoundPart],
    rfl, by simp [fullyDownloadedPart], ?_⟩
  intro v hv
  constructor
  · simp [metadataFoundPart, hv.ne']
  · simp [fullyDownloadedPart, hv.ne']

/-- C10, witness at the strictly positive milestone value 2 seconds. -/
theorem milestone_truthiness_rendering_witness :
    metadataFoundPart (some 2) = toFixed2 2 ++ " seconds" ∧
    fullyDownloadedPart (some 2) =
      "\n  - Fully downloaded in " ++ toFixed2 2 ++ " seconds" :=
  milestone_truthiness_rendering.2.2.2.2.2 2 (by norm_num)

/-- C1, counterexample.  Running the goodbye finalizer with a failing
swarm.destroy leaves the storage close and workspace removal unattempted
(their call counters stay at zero) and re-raises the destroy error out of
the async finalizer body instead of logging it, contrary to the claim. -/
theorem teardown_after_failed_destroy_cex :
    (runGoodbyeFinalizer true ⟨true, false, false⟩ initFinalizerState).state.closeCalls = 0 ∧
    (runGoodbyeFinalizer true ⟨true, false, false⟩ initFinalizerState).state.rmCalls = 0 ∧
    (runGoodbyeFinalizer true ⟨true, false, false⟩ initFinalizerState).err =
      some TeardownError.destroyError := by
  decide

/-- C1 (amended).  The goodbye finalizer body contains no try/catch: the
teardown steps run strictly in sequence, and when the swarm-destroy step
raises, neither the storage close nor the workspace removal is attempted and
the destroy error propagates out of the finalizer (it is not logged — the
later teardown console lines are not printed either); when the destroy step
succeeds but the storage-close step raises, the workspace removal is not
attempted and the close error propagates. -/
theorem teardown_step_failure_skips_rest
    (cancelling : Bool) (fx : TeardownFx) (s : FinalizerState) :
    (fx.destroyFails = true →
      (runGoodbyeFinalizer cancelling fx s).state.closeCalls = s.closeCalls ∧
      (runGoodbyeFinalizer cancelling fx s).state.rmCalls = s.rmCalls ∧
      (runGoodbyeFinalizer cancelling fx s).err = some TeardownError.destroyError ∧
      FinalizerLog.closingMsg ∉ (runGoodbyeFinalizer cancelling fx s).logs ∧
      FinalizerLog.cleaningMsg ∉ (runGoodbyeFinalizer cancelling fx s).logs) ∧
    (fx.destroyFails = false → fx.closeFails = true →
      (runGoodbyeFinalizer cancelling fx s).state.rmCalls = s.rmCalls ∧
      (runGoodbyeFinalizer cancelling fx s).err = some TeardownError.closeError ∧
      FinalizerLog.cleaningMsg ∉ (runGoodbyeFinalizer cancelling fx s).logs) := by
  obtain ⟨d, cl, rm⟩ := fx
  cases cancelling <;> cases d <;> cases cl <;> cases rm <;>
    simp [runGoodbyeFinalizer]

/-- C1, witness for the amended theorem at a failing storage-close step. -/
theorem teardown_step_failure_skips_rest_witness :
    (runGoodbyeFinalizer false ⟨false, true, false⟩ initFinalizerState).state.rmCalls = 0 ∧
    (runGoodbyeFinalizer false ⟨false, true, false⟩ initFinalizerState).err =
      some TeardownError.closeError ∧
    FinalizerLog.cleaningMsg ∉
      (runGoodbyeFinalizer false ⟨false, true, false⟩ initFinalizerState).logs :=
  (teardown_step_failure_skips_rest false ⟨false, true, false⟩
    initFinalizerState).2 rfl rfl

/-- C3, counterexample.  The finalizer has no entered-guard: invoking it a
second time after a completed first invocation runs the destroy, close and
removal steps again, so after two invocations each step has run twice, not
once. -/
theorem finalizer_double_invocation_cex :
    (runGoodbyeFinalizer false ⟨false, false, false⟩
        (runGoodbyeFinalizer false ⟨false, false, false⟩
          initFinalizerState).state).state.destroyCalls = 2 ∧
    (runGoodbyeFinalizer false ⟨false, false, false⟩
        (runGoodbyeFinalizer false ⟨false, false, false⟩
          initFinalizerState).state).state.destroyCalls ≠ 1 := by
  decide

/-- C3 (amended).  The goodbye finalizer is not idempotent: its body has no
entered-guard, so each invocation unconditionally re-runs the whole
destroy/close/remove sequence (the cancelling flag only selects the printed
notice).  Invoking it twice in sequence executes each teardown step twice;
the exactly-once behaviour of the program relies on the external
graceful-goodbye registry invoking the registered finalizer at most once,
not on the finalizer itself. -/
theorem finalizer_not_idempotent
    (c₁ c₂ : Bool) (s : FinalizerState) :
    (runGoodbyeFinalizer c₂ ⟨false, false, false⟩
        (runGoodbyeFinalizer c₁ ⟨false, false, false⟩ s).state).state.destroyCalls =
      s.destroyCalls + 2 ∧
    (runGoodbyeFinalizer c₂ ⟨false, false, false⟩
        (runGoodbyeFinalizer c₁ ⟨false, false, false⟩ s).state).state.closeCalls =
      s.closeCalls + 2 ∧
    (runGoodbyeFinalizer c₂ ⟨false, false, false⟩
        (runGoodbyeFinalizer c₁ ⟨false, false, false⟩ s).state).state.rmCalls =
      s.rmCalls + 2 ∧
    (runGoodbyeFinalizer c₂ ⟨false, false, false⟩
        (runGoodbyeFinalizer c₁ ⟨false, false, false⟩ s).state).state.statsReports =
      s.statsReports + 2 := by
  cases c₁ <;> cases c₂ <;> simp [runGoodbyeFinalizer]

/-- C2, counterexample.  In the command handler the periodic report timer is
registered during initialization, strictly before the drive-ready await, the
swarm join, the metadata wait and the metadata milestone assignment — not at
the transition where the metadata milestone is marked — so report ticks can
occur while the session is still awaiting metadata. -/
theorem timer_before_metadata_milestone_cex :
    eventIdx SEvent.setStatsInterval
        (runCmdHandler ⟨true, false, false, false⟩).events <
      eventIdx SEvent.awaitMetadataAppend
        (runCmdHandler ⟨true, false, false, false⟩).events ∧
    eventIdx SEvent.setStatsInterval
        (runCmdHandler ⟨true, false, false, false⟩).events <
      eventIdx SEvent.setSecTillMetadata
        (runCmdHandler ⟨true, false, false, false⟩).events := by
  decide

/-- C2 (amended).  In every run of the command handler whose workspace
creation succeeds, the periodic report timer is registered during
initialization: before the drive-ready await, before the swarm join, before
the metadata wait (when that wait is taken) and before the metadata
milestone assignment; the timer is never cleared inside the handler body (it
is cleared only inside the goodbye finalizer), and a tick occurring before
the milestone is marked renders the metadata line as the still-connecting
text. -/
theorem timer_started_during_initialization
    (fx : SessionFx) (h : fx.mkdirFails = false) :
    eventIdx SEvent.setStatsInterval (runCmdHandler fx).events <
      eventIdx SEvent.driveReady (runCmdHandler fx).events ∧
    eventIdx SEvent.setStatsInterval (runCmdHandler fx).events <
      eventIdx SEvent.swarmJoin (runCmdHandler fx).events ∧
    eventIdx SEvent.setStatsInterval (runCmdHandler fx).events <
      eventIdx SEvent.awaitMetadataAppend (runCmdHandler fx).events ∧
    eventIdx SEvent.setStatsInterval (runCmdHandler fx).events <
      eventIdx SEvent.setSecTillMetadata (runCmdHandler fx).events ∧
    SEvent.clearStatsInterval ∉ (runCmdHandler fx).events ∧
    metadataFoundPart none = "unknown (still connecting...)" := by
  obtain ⟨r, g, m, p⟩ := fx
  simp only at h
  subst h
  cases r <;> cases g <;> cases p <;> decide

/-- C2, witness for the amended theorem at a run with the remotes flag set
and the metadata wait taken. -/
theorem timer_started_during_initialization_witness :
    eventIdx SEvent.setStatsInterval
        (runCmdHandler ⟨true, false, false, false⟩).events <
      eventIdx SEvent.driveReady
        (runCmdHandler ⟨true, false, false, false⟩).events ∧
    SEvent.clearStatsInterval ∉
      (runCmdHandler ⟨true, false, false, false⟩).events :=
  ⟨(timer_started_during_initialization ⟨true, false, false, false⟩ rfl).1,
   (timer_started_during_initialization ⟨true, false, false, false⟩ rfl).2.2.2.2.1⟩

/-- C9, counterexample.  When removing the stale workspace fails but
creating the fresh workspace succeeds, the failure is swallowed by the empty
catch block: the run is not fatal and no error is logged, contrary to the
claim that a stale-cleanup failure is fatal and logged. -/
theorem stale_cleanup_failure_silent_cex :
    (runCmdHandler ⟨false, true, false, false⟩).fatal = none ∧
    (runCmdHandler ⟨false, true, false, false⟩).swallowedGcFailure = true ∧
    SEvent.logErrorEvent ∉ (runCmdHandler ⟨false, true, false, false⟩).events := by
  decide

/-- C9 (amended).  A workspace-creation failure is fatal: it propagates to
the caller and aborts the run before the swarm is constructed or joined,
before the report timer is registered and before the goodbye finalizer is
registered (so no report is ever produced).  The stale-workspace removal is
attempted exactly once (never retried), and when it fails while creation
succeeds the failure is silently swallowed by the empty catch block: the run
is not fatal and nothing is logged. -/
theorem setup_failure_propagation (fx : SessionFx) :
    (fx.mkdirFails = true →
      (runCmdHandler fx).fatal = some SessionError.mkdirError ∧
      SEvent.newHyperswarm ∉ (runCmdHandler fx).events ∧
      SEvent.swarmJoin ∉ (runCmdHandler fx).events ∧
      SEvent.setStatsInterval ∉ (runCmdHandler fx).events ∧
      SEvent.registerGoodbye ∉ (runCmdHandler fx).events) ∧
    (runCmdHandler fx).events.count SEvent.gcDirCall = 1 ∧
    (fx.gcDirFails = true → fx.mkdirFails = false →
      (runCmdHandler fx).fatal = none ∧
      (runCmdHandler fx).swallowedGcFailure = true ∧
      SEvent.logErrorEvent ∉ (runCmdHandler fx).events) := by
  obtain ⟨r, g, m, p⟩ := fx
  cases r <;> cases g <;> cases m <;> cases p <;> decide

/-- C9, witness for the amended theorem: at a failing workspace creation the
error propagates with no network, timer or finalizer step, and at a failing
stale cleanup with successful creation the run is non-fatal and unlogged. -/
theorem setup_failure_propagation_witness :
    ((runCmdHandler ⟨false, false, true, false⟩).fatal =
        some SessionError.mkdirError ∧
      SEvent.newHyperswarm ∉ (runCmdHandler ⟨false, false, true, false⟩).events ∧
      SEvent.swarmJoin ∉ (runCmdHandler ⟨false, false, true, false⟩).events ∧
      SEvent.setStatsInterval ∉ (runCmdHandler ⟨false, false, true, false⟩).events ∧
      SEvent.registerGoodbye ∉ (runCmdHandler ⟨false, false, true, false⟩).events) ∧
    ((runCmdHandler ⟨false, true, false, false⟩).fatal = none ∧
      (runCmdHandler ⟨false, true, false, false⟩).swallowedGcFailure = true ∧
      SEvent.logErrorEvent ∉ (runCmdHandler ⟨false, true, false, false⟩).events) :=
  ⟨(setup_failure_propagation ⟨false, false, true, false⟩).1 rfl,
   (setup_failure_propagation ⟨false, true, false, false⟩).2.2 rfl rfl⟩

end HyperdriveProfiler
